import Mathlib

/-!
Verification of the HyperScan emulator core (SPCE3200 / S+core) against its
natural-language specification.

The JavaScript sources are shallowly embedded as Lean functions:

* machine integers are `Nat` values; a store into a `Uint32Array` slot is
  modelled by reducing modulo `2 ^ 32` (`wrap32`, the counterpart of the
  JavaScript `>>> 0` coercion), and the register banks therefore hold values
  below `2 ^ 32` by construction;
* the JavaScript 32-bit complement `~x` (whose result is always consumed as an
  unsigned 32-bit pattern in this code base) is modelled by `not32`;
* mutation of `this` becomes explicit state passing: each method of the CPU,
  the memory regions, the peripherals and the engine takes the component's
  state and returns the updated state together with its result.
-/

set_option autoImplicit false

namespace Hyperscan

/-- `x >>> 0` / a store into a `Uint32Array` slot: reduce to the unsigned
32-bit domain. -/
def wrap32 (x : Nat) : Nat := x % 4294967296

/-- The unsigned 32-bit pattern of the JavaScript `~x` (int32 complement). -/
def not32 (x : Nat) : Nat := 4294967295 ^^^ x

/-- Pointwise function update, used for the register banks and byte stores
(the counterpart of `arr[i] = v`). -/
def updFn (f : Nat → Nat) (i v : Nat) : Nat → Nat :=
  fun j => if j = i then v else f j

/-- `CPU.signExtend(x, b)` from `cpu.js`: interpret the low `b` bits of `x` as
a signed quantity and return its unsigned 32-bit pattern.  The source computes
`((x ^ m) - m) >>> 0` with `m = 1 << (b - 1)`; for `x` reduced modulo `2 ^ b`
this equals the branch below. -/
def signExtend (x b : Nat) : Nat :=
  if b ≥ 32 then wrap32 x
  else
    let x := x % 2 ^ b
    if x < 2 ^ (b - 1) then x else x + (4294967296 - 2 ^ b)

/-- `ArrayMemoryRegion`: a byte store with overlapping 8/16/32-bit views.
`size` is the byte size (a power of two for the regions the engine creates);
indices are masked with `size - 1` exactly as the source masks with
`u8.length - 1`.  `u8` is the byte store; reads reduce modulo 256, mirroring
the `Uint8Array` value invariant. -/
structure ArrayRegion where
  size : Nat
  u8 : Nat → Nat
  writable : Bool

/-- `SegmentedMemoryRegion` (the MIU): 256 segment slots, each empty or an
array-backed region.  (The peripherals are modelled separately; the
CPU-level claims only exercise array-backed segments.) -/
structure Miu where
  segments : Nat → Option ArrayRegion

def ArrayRegion.readU8 (m : ArrayRegion) (off : Nat) : Nat :=
  m.u8 (off &&& (m.size - 1)) % 256

def ArrayRegion.readU16 (m : ArrayRegion) (off : Nat) : Nat :=
  let i := (off >>> 1) &&& (m.size / 2 - 1)
  m.u8 (2 * i) % 256 + 256 * (m.u8 (2 * i + 1) % 256)

def ArrayRegion.readU32 (m : ArrayRegion) (off : Nat) : Nat :=
  let i := (off >>> 2) &&& (m.size / 4 - 1)
  m.u8 (4 * i) % 256 + 256 * (m.u8 (4 * i + 1) % 256) +
    65536 * (m.u8 (4 * i + 2) % 256) + 16777216 * (m.u8 (4 * i + 3) % 256)

def ArrayRegion.writeU8 (m : ArrayRegion) (off v : Nat) : ArrayRegion :=
  if m.writable then
    { m with u8 := updFn m.u8 (off &&& (m.size - 1)) (v &&& 255) }
  else m

def ArrayRegion.writeU16 (m : ArrayRegion) (off v : Nat) : ArrayRegion :=
  if m.writable then
    let i := (off >>> 1) &&& (m.size / 2 - 1)
    { m with u8 := updFn (updFn m.u8 (2 * i) (v &&& 255)) (2 * i + 1) ((v >>> 8) &&& 255) }
  else m

def ArrayRegion.writeU32 (m : ArrayRegion) (off v : Nat) : ArrayRegion :=
  if m.writable then
    let v := wrap32 v
    let i := (off >>> 2) &&& (m.size / 4 - 1)
    let s0 := updFn m.u8 (4 * i) (v &&& 255)
    let s1 := updFn s0 (4 * i + 1) ((v >>> 8) &&& 255)
    let s2 := updFn s1 (4 * i + 2) ((v >>> 16) &&& 255)
    let s3 := updFn s2 (4 * i + 3) ((v >>> 24) &&& 255)
    { m with u8 := s3 }
  else m

/-- `ArrayMemoryRegion.load(data, offset)`: copy a byte sequence into the
store starting at `offset` (bypassing the read-only flag, as `u8.set` does). -/
def ArrayRegion.load (m : ArrayRegion) (data : List Nat) (off : Nat) : ArrayRegion :=
  match data with
  | [] => m
  | b :: rest =>
    ArrayRegion.load { m with u8 := updFn m.u8 off (b % 256) } rest (off + 1)

def Miu.readU8 (m : Miu) (addr : Nat) : Nat :=
  match m.segments ((addr >>> 24) &&& 255) with
  | none => 0
  | some reg => reg.readU8 (addr &&& 16777215)

def Miu.readU16 (m : Miu) (addr : Nat) : Nat :=
  match m.segments ((addr >>> 24) &&& 255) with
  | none => 0
  | some reg => reg.readU16 (addr &&& 16777215)

def Miu.readU32 (m : Miu) (addr : Nat) : Nat :=
  match m.segments ((addr >>> 24) &&& 255) with
  | none => 0
  | some reg => reg.readU32 (addr &&& 16777215)

def Miu.writeU8 (m : Miu) (addr v : Nat) : Miu :=
  let seg := (addr >>> 24) &&& 255
  match m.segments seg with
  | none => m
  | some reg =>
    { segments := fun s =>
        if s = seg then some (reg.writeU8 (addr &&& 16777215) v) else m.segments s }

def Miu.writeU16 (m : Miu) (addr v : Nat) : Miu :=
  let seg := (addr >>> 24) &&& 255
  match m.segments seg with
  | none => m
  | some reg =>
    { segments := fun s =>
        if s = seg then some (reg.writeU16 (addr &&& 16777215) v) else m.segments s }

def Miu.writeU32 (m : Miu) (addr v : Nat) : Miu :=
  let seg := (addr >>> 24) &&& 255
  match m.segments seg with
  | none => m
  | some reg =>
    { segments := fun s =>
        if s = seg then some (reg.writeU32 (addr &&& 16777215) v) else m.segments s }

/-- The CPU state of `cpu.js`: register file `r`, control registers `cr`,
system registers `sr`, custom-engine accumulator halves, program counter, the
five flags (kept as the numbers 0/1 exactly as the source keeps them), the
cycle and instruction counters, the `halted` flag and the borrowed handle to
the memory interface unit (`null` is `none`). -/
structure CPU where
  r : Nat → Nat
  cr : Nat → Nat
  sr : Nat → Nat
  CEL : Nat
  CEH : Nat
  pc : Nat
  N : Nat
  Z : Nat
  C : Nat
  V : Nat
  T : Nat
  cycles : Nat
  instructions : Nat
  halted : Bool
  miu : Option Miu

/-- `this.r[i] = v` (the `Uint32Array` store wraps the value). -/
def CPU.setR (c : CPU) (i v : Nat) : CPU :=
  { c with r := updFn c.r i (wrap32 v) }

def CPU.getSystemRegister (c : CPU) (idx : Nat) : Nat :=
  if idx < 32 then wrap32 (c.sr idx) else 0

def CPU.packSR0 (c : CPU) : CPU :=
  let v := ((c.N &&& 1) <<< 31) ||| ((c.Z &&& 1) <<< 30) ||| ((c.C &&& 1) <<< 29) |||
    ((c.V &&& 1) <<< 28) ||| (c.T &&& 1)
  { c with sr := updFn c.sr 0 v }

def CPU.unpackSR0 (c : CPU) : CPU :=
  let v := wrap32 (c.sr 0)
  { c with
      N := (v >>> 31) &&& 1
      Z := (v >>> 30) &&& 1
      C := (v >>> 29) &&& 1
      V := (v >>> 28) &&& 1
      T := v &&& 1 }

def CPU.setSystemRegister (c : CPU) (idx v : Nat) : CPU :=
  if idx < 32 then
    let c := { c with sr := updFn c.sr idx (wrap32 v) }
    if idx = 0 then c.unpackSR0 else c
  else c

def CPU.updateBasicFlags (c : CPU) (res : Nat) : CPU :=
  let res := wrap32 res
  { c with N := (res >>> 31) &&& 1, Z := if res = 0 then 1 else 0 }

def CPU.add (c : CPU) (a b : Nat) (uf : Bool) : CPU × Nat :=
  let a := wrap32 a
  let b := wrap32 b
  let res := wrap32 (a + b)
  if uf then
    let c := c.updateBasicFlags res
    ({ c with
        C := if b > 4294967295 - a then 1 else 0
        V := ((not32 (a ^^^ b) &&& (a ^^^ res)) >>> 31) &&& 1 }, res)
  else (c, res)

def CPU.addc (c : CPU) (a b : Nat) (uf : Bool) : CPU × Nat :=
  let a := wrap32 a
  let b := wrap32 b
  let res := wrap32 (a + b + c.C)
  if uf then
    let c0 := c
    let c := c.updateBasicFlags res
    ({ c with
        C := if b + c0.C > 4294967295 - a then 1 else 0
        V := ((not32 (a ^^^ b) &&& (a ^^^ res)) >>> 31) &&& 1 }, res)
  else (c, res)

def CPU.sub (c : CPU) (a b : Nat) (uf : Bool) : CPU × Nat :=
  let a := wrap32 a
  let b := wrap32 b
  let res := wrap32 (a + 4294967296 - b)
  if uf then
    let c := c.updateBasicFlags res
    ({ c with
        C := if a ≥ b then 1 else 0
        V := (((a ^^^ b) &&& not32 (res ^^^ b)) >>> 31) &&& 1 }, res)
  else (c, res)

def CPU.subc (c : CPU) (a b : Nat) (uf : Bool) : CPU × Nat :=
  let a := wrap32 a
  let b := wrap32 b
  let borrow := if c.C = 0 then 1 else 0
  let res := wrap32 (a + 4294967296 - (b + borrow))
  if uf then
    let c := c.updateBasicFlags res
    ({ c with
        C := if a ≥ b + borrow then 1 else 0
        V := (((a ^^^ b) &&& not32 (res ^^^ b)) >>> 31) &&& 1 }, res)
  else (c, res)

def CPU.neg (c : CPU) (a : Nat) (uf : Bool) : CPU × Nat :=
  let a := wrap32 a
  let res := wrap32 (4294967296 - a)
  if uf then
    let c := c.updateBasicFlags res
    ({ c with
        C := if a = 0 then 1 else 0
        V := if a = 2147483648 then 1 else 0 }, res)
  else (c, res)

inductive BitOpKind | and | or | xor | not

def CPU.bitOp (c : CPU) (a b : Nat) (kind : BitOpKind) (uf : Bool) : CPU × Nat :=
  let res :=
    match kind with
    | .and => a &&& b
    | .or => a ||| b
    | .xor => a ^^^ b
    | .not => not32 (wrap32 a)
  if uf then (c.updateBasicFlags res, res) else (c, res)

def CPU.sll (c : CPU) (a sa : Nat) (uf : Bool) : CPU × Nat :=
  let a := wrap32 a
  let sa := sa &&& 31
  let res := wrap32 (a <<< sa)
  if uf then
    let c := c.updateBasicFlags res
    (if sa > 0 then { c with C := (a >>> (32 - sa)) &&& 1 } else c, res)
  else (c, res)

def CPU.srl (c : CPU) (a sa : Nat) (uf : Bool) : CPU × Nat :=
  let a := wrap32 a
  let sa := sa &&& 31
  let res := a >>> sa
  if uf then
    let c := c.updateBasicFlags res
    (if sa > 0 then { c with C := (a >>> (sa - 1)) &&& 1 } else c, res)
  else (c, res)

def CPU.sra (c : CPU) (a sa : Nat) (uf : Bool) : CPU × Nat :=
  let a := wrap32 a
  let sa := sa &&& 31
  let res := if a < 2147483648 then a >>> sa else (a >>> sa) + (4294967296 - 2 ^ (32 - sa))
  if uf then
    let c := c.updateBasicFlags res
    (if sa > 0 then { c with C := (a >>> (sa - 1)) &&& 1 } else c, res)
  else (c, res)

def CPU.ror (c : CPU) (a sa : Nat) (uf : Bool) : CPU × Nat :=
  let a := wrap32 a
  let sa := sa &&& 31
  if sa = 0 then (c, a)
  else
    let res := (a >>> sa) ||| wrap32 (a <<< (32 - sa))
    if uf then
      let c := c.updateBasicFlags res
      ({ c with C := (a >>> (sa - 1)) &&& 1 }, res)
    else (c, res)

def CPU.rol (c : CPU) (a sa : Nat) (uf : Bool) : CPU × Nat :=
  let a := wrap32 a
  let sa := sa &&& 31
  if sa = 0 then (c, a)
  else
    let res := wrap32 (a <<< sa) ||| (a >>> (32 - sa))
    if uf then
      let c := c.updateBasicFlags res
      ({ c with C := (a >>> (32 - sa)) &&& 1 }, res)
    else (c, res)

def CPU.rorc (c : CPU) (a : Nat) (uf : Bool) : CPU × Nat :=
  let a := wrap32 a
  let res := (a >>> 1) ||| ((c.C &&& 1) <<< 31)
  if uf then
    let c := c.updateBasicFlags res
    ({ c with C := a &&& 1 }, res)
  else (c, res)

def CPU.rolc (c : CPU) (a : Nat) (uf : Bool) : CPU × Nat :=
  let a := wrap32 a
  let res := wrap32 (a <<< 1) ||| (c.C &&& 1)
  if uf then
    let c := c.updateBasicFlags res
    ({ c with C := (a >>> 31) &&& 1 }, res)
  else (c, res)

def CPU.extsb (c : CPU) (a : Nat) (uf : Bool) : CPU × Nat :=
  let res := a &&& 255
  let res := if res &&& 128 ≠ 0 then res ||| 4294967040 else res
  if uf then (c.updateBasicFlags res, res) else (c, res)

def CPU.extsh (c : CPU) (a : Nat) (uf : Bool) : CPU × Nat :=
  let res := a &&& 65535
  let res := if res &&& 32768 ≠ 0 then res ||| 4294901760 else res
  if uf then (c.updateBasicFlags res, res) else (c, res)

def CPU.extzb (c : CPU) (a : Nat) (uf : Bool) : CPU × Nat :=
  let res := a &&& 255
  if uf then (c.updateBasicFlags res, res) else (c, res)

def CPU.extzh (c : CPU) (a : Nat) (uf : Bool) : CPU × Nat :=
  let res := a &&& 65535
  if uf then (c.updateBasicFlags res, res) else (c, res)

def CPU.bitclr (c : CPU) (a bitIdx : Nat) (uf : Bool) : CPU × Nat :=
  let bitIdx := bitIdx &&& 31
  let res := wrap32 a &&& not32 (1 <<< bitIdx)
  if uf then (c.updateBasicFlags res, res) else (c, res)

def CPU.bitset (c : CPU) (a bitIdx : Nat) (uf : Bool) : CPU × Nat :=
  let bitIdx := bitIdx &&& 31
  let res := wrap32 a ||| (1 <<< bitIdx)
  if uf then (c.updateBasicFlags res, res) else (c, res)

def CPU.bittst (c : CPU) (a bitIdx : Nat) : CPU :=
  let bitIdx := bitIdx &&& 31
  let t : Nat := if a &&& (1 <<< bitIdx) ≠ 0 then 1 else 0
  { c with T := t, Z := if t = 1 then 0 else 1 }

def CPU.bittgl (c : CPU) (a bitIdx : Nat) (uf : Bool) : CPU × Nat :=
  let bitIdx := bitIdx &&& 31
  let res := wrap32 a ^^^ (1 <<< bitIdx)
  if uf then (c.updateBasicFlags res, res) else (c, res)

def CPU.conditional (c : CPU) (cond : Nat) : Bool :=
  match cond &&& 15 with
  | 0 => c.C = 1
  | 1 => c.C = 0
  | 2 => c.C = 1 ∧ c.Z = 0
  | 3 => c.C = 0 ∨ c.Z = 1
  | 4 => c.Z = 1
  | 5 => c.Z = 0
  | 6 => c.N = c.V ∧ c.Z = 0
  | 7 => c.N ≠ c.V ∨ c.Z = 1
  | 8 => c.N = c.V
  | 9 => c.N ≠ c.V
  | 10 => c.N = 1
  | 11 => c.N = 0
  | 12 => c.V = 1
  | 13 => c.V = 0
  | 14 => c.T = 1
  | _ => True

/-- The signed-int32 value of an unsigned 32-bit pattern (`a | 0`). -/
def toInt32 (a : Nat) : Int :=
  if wrap32 a < 2147483648 then (wrap32 a : Int) else (wrap32 a : Int) - 4294967296

def CPU.execMul (c : CPU) (a b : Nat) : CPU :=
  let res := toInt32 a * toInt32 b
  { c with CEL := (res.emod 4294967296).toNat, CEH := ((res >>> 32).emod 4294967296).toNat }

def CPU.execMulu (c : CPU) (a b : Nat) : CPU :=
  let res := wrap32 a * wrap32 b
  { c with CEL := res % 4294967296, CEH := (res >>> 32) % 4294967296 }

def CPU.execDiv (c : CPU) (a b : Nat) : CPU :=
  let sA := toInt32 a
  let sB := toInt32 b
  if sB ≠ 0 then
    { c with CEL := ((sA.tdiv sB).emod 4294967296).toNat,
             CEH := ((sA.tmod sB).emod 4294967296).toNat }
  else c

def CPU.execDivu (c : CPU) (a b : Nat) : CPU :=
  let uA := wrap32 a
  let uB := wrap32 b
  if uB ≠ 0 then { c with CEL := uA / uB, CEH := uA % uB } else c

def CPU.moveFromCE (c : CPU) (rD rB : Nat) : CPU :=
  match rB &&& 3 with
  | 1 => { c with r := updFn c.r rD c.CEL }
  | 2 => { c with r := updFn c.r rD c.CEH }
  | 3 =>
    let c := { c with r := updFn c.r rD c.CEL }
    if rD < 31 then { c with r := updFn c.r (rD + 1) c.CEH } else c
  | _ => c

def CPU.moveToCE (c : CPU) (rD rB : Nat) : CPU :=
  match rB &&& 3 with
  | 1 => { c with CEL := c.r rD }
  | 2 => { c with CEH := c.r rD }
  | 3 =>
    let c := { c with CEL := c.r rD }
    if rD < 31 then { c with CEH := c.r (rD + 1) } else c
  | _ => c

def CPU.exception (c : CPU) (cause : Nat) : CPU :=
  let c := c.packSR0
  let c := { c with cr := updFn c.cr 1 (c.sr 0) }
  let c := { c with cr := updFn c.cr 2 ((c.cr 2 &&& not32 16515072) ||| ((cause &&& 63) <<< 18)) }
  let c := { c with cr := updFn c.cr 5 (wrap32 c.pc) }
  let c := { c with cr := updFn c.cr 0 (c.cr 0 &&& 4294967294) }
  { c with pc := wrap32 (c.cr 3 + cause * 4) }

def CPU.rte (c : CPU) : CPU :=
  let c := { c with sr := updFn c.sr 0 (c.cr 1) }
  let c := c.unpackSR0
  { c with pc := c.cr 5 }

/-- `CPU.execSpForm` from `cpu.js`: the SP-form executor (OP = 0x00).  Returns
the updated CPU together with the PC advance the source returns (0 when the
instruction transferred control, 4 otherwise). -/
def CPU.execSpForm (c : CPU) (insn : Nat) : CPU × Nat :=
  let rD := (insn >>> 22) &&& 31
  let rA := (insn >>> 17) &&& 31
  let rB := (insn >>> 12) &&& 31
  let func6 := (insn >>> 1) &&& 63
  let CU := insn &&& 1
  match func6 with
  | 0x00 => (c, 4)
  | 0x01 => (c, 4)
  | 0x02 => (if c.conditional rB then c.exception 2 else c, 4)
  | 0x03 => (c.exception 3, 4)
  | 0x04 =>
    if c.conditional rB then
      let c := if CU = 1 then c.setR 3 (c.pc + 4) else c
      ({ c with pc := c.r rA }, 0)
    else (c, 4)
  | 0x05 => (c, 4)
  | 0x06 =>
    (match c.miu with
     | some m => c.setR rD (m.readU32 (c.r rA))
     | none => c, 4)
  | 0x07 =>
    (match c.miu with
     | some m => { c with miu := some (m.writeU32 (c.r rA) (c.r rD)) }
     | none => c, 4)
  | 0x08 => let (c, res) := c.add (c.r rA) (c.r rB) (CU = 1); (c.setR rD res, 4)
  | 0x09 => let (c, res) := c.addc (c.r rA) (c.r rB) (CU = 1); (c.setR rD res, 4)
  | 0x0A => let (c, res) := c.sub (c.r rA) (c.r rB) (CU = 1); (c.setR rD res, 4)
  | 0x0B => let (c, res) := c.subc (c.r rA) (c.r rB) (CU = 1); (c.setR rD res, 4)
  | 0x0C =>
    let (c, _) := c.sub (c.r rA) (c.r rB) true
    ({ c with T := if c.conditional rD then 1 else 0 }, 4)
  | 0x0D =>
    let (c, _) := c.sub (c.r rA) 0 true
    ({ c with T := if c.conditional rD then 1 else 0 }, 4)
  | 0x0F => let (c, res) := c.neg (c.r rA) (CU = 1); (c.setR rD res, 4)
  | 0x10 => let (c, res) := c.bitOp (c.r rA) (c.r rB) .and (CU = 1); (c.setR rD res, 4)
  | 0x11 => let (c, res) := c.bitOp (c.r rA) (c.r rB) .or (CU = 1); (c.setR rD res, 4)
  | 0x12 => let (c, res) := c.bitOp (c.r rA) 0 .not (CU = 1); (c.setR rD res, 4)
  | 0x13 => let (c, res) := c.bitOp (c.r rA) (c.r rB) .xor (CU = 1); (c.setR rD res, 4)
  | 0x14 => let (c, res) := c.bitclr (c.r rA) rB (CU = 1); (c.setR rD res, 4)
  | 0x15 => let (c, res) := c.bitset (c.r rA) rB (CU = 1); (c.setR rD res, 4)
  | 0x16 => (c.bittst (c.r rA) rB, 4)
  | 0x17 => let (c, res) := c.bittgl (c.r rA) rB (CU = 1); (c.setR rD res, 4)
  | 0x18 => let (c, res) := c.sll (c.r rA) (c.r rB) (CU = 1); (c.setR rD res, 4)
  | 0x1A => let (c, res) := c.srl (c.r rA) (c.r rB) (CU = 1); (c.setR rD res, 4)
  | 0x1B => let (c, res) := c.sra (c.r rA) (c.r rB) (CU = 1); (c.setR rD res, 4)
  | 0x1C => let (c, res) := c.ror (c.r rA) (c.r rB) (CU = 1); (c.setR rD res, 4)
  | 0x1D => let (c, res) := c.rorc (c.r rA) (CU = 1); (c.setR rD res, 4)
  | 0x1E => let (c, res) := c.rol (c.r rA) (c.r rB) (CU = 1); (c.setR rD res, 4)
  | 0x1F => let (c, res) := c.rolc (c.r rA) (CU = 1); (c.setR rD res, 4)
  | 0x20 => (c.execMul (c.r rA) (c.r rB), 4)
  | 0x21 => (c.execMulu (c.r rA) (c.r rB), 4)
  | 0x22 => (c.execDiv (c.r rA) (c.r rB), 4)
  | 0x23 => (c.execDivu (c.r rA) (c.r rB), 4)
  | 0x24 => (c.moveFromCE rD rB, 4)
  | 0x25 => (c.moveToCE rD rB, 4)
  | 0x28 => ({ c with r := updFn c.r rD (c.sr rB) }, 4)
  | 0x29 =>
    let c := { c with sr := updFn c.sr rB (c.r rA) }
    (if rB = 0 then c.unpackSR0 else c, 4)
  | 0x2A => ({ c with T := if c.conditional rB then 1 else 0 }, 4)
  | 0x2B => (if c.conditional rB then { c with r := updFn c.r rD (c.r rA) } else c, 4)
  | 0x2C => let (c, res) := c.extsb (c.r rA) (CU = 1); (c.setR rD res, 4)
  | 0x2D => let (c, res) := c.extsh (c.r rA) (CU = 1); (c.setR rD res, 4)
  | 0x2E => let (c, res) := c.extzb (c.r rA) (CU = 1); (c.setR rD res, 4)
  | 0x2F => let (c, res) := c.extzh (c.r rA) (CU = 1); (c.setR rD res, 4)
  | 0x30 =>
    (match c.miu with
     | some m => c.setR rD (m.readU8 (c.r rA))
     | none => c, 4)
  | 0x31 =>
    (match c.miu with
     | some m => c.setR rD (m.readU32 (c.r rA))
     | none => c, 4)
  | 0x34 =>
    (match c.miu with
     | some m => { c with miu := some (m.writeU8 (c.r rA) (c.r rD &&& 255)) }
     | none => c, 4)
  | 0x35 =>
    (match c.miu with
     | some m => { c with miu := some (m.writeU32 (c.r rA) (c.r rD)) }
     | none => c, 4)
  | 0x38 => let (c, res) := c.sll (c.r rA) rB (CU = 1); (c.setR rD res, 4)
  | 0x3A => let (c, res) := c.srl (c.r rA) rB (CU = 1); (c.setR rD res, 4)
  | 0x3B => let (c, res) := c.sra (c.r rA) rB (CU = 1); (c.setR rD res, 4)
  | 0x3C => let (c, res) := c.ror (c.r rA) rB (CU = 1); (c.setR rD res, 4)
  | 0x3D => let (c, res) := c.rorc (c.r rA) true; (c.setR rD res, 4)
  | 0x3E => let (c, res) := c.rol (c.r rA) rB (CU = 1); (c.setR rD res, 4)
  | 0x3F => let (c, res) := c.rolc (c.r rA) true; (c.setR rD res, 4)
  | _ => (c, 4)

/-- `CPU.execIForm` (OP = 0x01 and 0x05). -/
def CPU.execIForm (c : CPU) (insn : Nat) : CPU × Nat :=
  let OP := (insn >>> 27) &&& 31
  let rD := (insn >>> 22) &&& 31
  let func3 := (insn >>> 19) &&& 7
  let imm16 := signExtend ((insn >>> 1) &&& 65535) 16
  if OP = 1 then
    match func3 with
    | 0 => let (c, res) := c.add (c.r rD) imm16 false; (c.setR rD res, 4)
    | 2 => let (c, _) := c.sub (c.r rD) imm16 true; (c, 4)
    | 4 => let (c, res) := c.bitOp (c.r rD) imm16 .and false; (c.setR rD res, 4)
    | 5 => let (c, res) := c.bitOp (c.r rD) imm16 .or false; (c.setR rD res, 4)
    | 6 => (c.setR rD imm16, 4)
    | _ => (c, 4)
  else if OP = 5 then
    match func3 with
    | 0 => let (c, res) := c.add (c.r rD) (imm16 <<< 16) false; (c.setR rD res, 4)
    | 2 => let (c, _) := c.sub (c.r rD) (imm16 <<< 16) true; (c, 4)
    | 4 => let (c, res) := c.bitOp (c.r rD) (wrap32 (imm16 <<< 16)) .and false; (c.setR rD res, 4)
    | 5 => let (c, res) := c.bitOp (c.r rD) (wrap32 (imm16 <<< 16)) .or false; (c.setR rD res, 4)
    | 6 => (c.setR rD (wrap32 (imm16 <<< 16)), 4)
    | _ => (c, 4)
  else (c, 4)

/-- `CPU.execJForm` (OP = 0x02). -/
def CPU.execJForm (c : CPU) (insn : Nat) : CPU × Nat :=
  let LK := insn &&& 1
  let disp24 := (insn >>> 1) &&& 16777215
  let target := (c.pc &&& 4261412864) ||| (disp24 <<< 1)
  let c := if LK = 1 then c.setR 3 (c.pc + 4) else c
  ({ c with pc := target }, 0)

/-- `CPU.execBForm` (OP = 0x04). -/
def CPU.execBForm (c : CPU) (insn : Nat) : CPU × Nat :=
  let LK := insn &&& 1
  let BC := (insn >>> 23) &&& 15
  let dispHigh := (insn >>> 9) &&& 16383
  let dispLow := (insn >>> 1) &&& 255
  let disp22 := (dispHigh <<< 8) ||| dispLow
  let signedDisp := signExtend disp22 22
  let target := wrap32 (c.pc + wrap32 (signedDisp <<< 1))
  if c.conditional BC then
    let c := if LK = 1 then c.setR 3 (c.pc + 4) else c
    ({ c with pc := target }, 0)
  else (c, 4)

/-- `CPU.execRixForm` (OP = 0x03 and 0x07). -/
def CPU.execRixForm (c : CPU) (insn : Nat) : CPU × Nat :=
  let OP := (insn >>> 27) &&& 31
  let rD := (insn >>> 22) &&& 31
  let rA := (insn >>> 17) &&& 31
  let imm12 := signExtend ((insn >>> 5) &&& 4095) 12
  let func3 := (insn >>> 2) &&& 7
  let addr := wrap32 (c.r rA + imm12)
  match c.miu with
  | none => (c, 4)
  | some m =>
    let c :=
      match func3 with
      | 0 => c.setR rD (m.readU32 addr)
      | 1 => c.setR rD (signExtend (m.readU16 addr) 16)
      | 2 => c.setR rD (m.readU16 addr)
      | 3 => c.setR rD (signExtend (m.readU8 addr) 8)
      | 4 => { c with miu := some (m.writeU32 addr (c.r rD)) }
      | 5 => { c with miu := some (m.writeU16 addr (c.r rD)) }
      | 6 => c.setR rD (m.readU8 addr)
      | _ => { c with miu := some (m.writeU8 addr (c.r rD)) }
    (if OP = 3 then c.setR rA addr else c, 4)

/-- `CPU.execMemoryForm` (OP = 0x10 .. 0x17). -/
def CPU.execMemoryForm (c : CPU) (insn : Nat) : CPU × Nat :=
  let OP := (insn >>> 27) &&& 31
  let rD := (insn >>> 22) &&& 31
  let rA := (insn >>> 17) &&& 31
  let imm15 := signExtend ((insn >>> 2) &&& 32767) 15
  let addr := wrap32 (c.r rA + imm15)
  match c.miu with
  | none => (c, 4)
  | some m =>
    let c :=
      match OP with
      | 0x10 => c.setR rD (m.readU32 addr)
      | 0x11 => c.setR rD (signExtend (m.readU16 addr) 16)
      | 0x12 => c.setR rD (m.readU16 addr)
      | 0x13 => c.setR rD (signExtend (m.readU8 addr) 8)
      | 0x14 => { c with miu := some (m.writeU32 addr (c.r rD)) }
      | 0x15 => { c with miu := some (m.writeU16 addr (c.r rD)) }
      | 0x16 => c.setR rD (m.readU8 addr)
      | 0x17 => { c with miu := some (m.writeU8 addr (c.r rD)) }
      | _ => c
    (c, 4)

/-- `CPU.exec16`: the 16-bit compact executor.  Returns the PC advance
(0 on control transfer, 2 otherwise). -/
def CPU.exec16 (c : CPU) (insn : Nat) : CPU × Nat :=
  let OP := (insn >>> 13) &&& 7
  let rD := (insn >>> 1) &&& 15
  let rA := (insn >>> 5) &&& 15
  match OP with
  | 0 =>
    let func4 := (insn >>> 9) &&& 15
    match func4 with
    | 3 => ({ c with r := updFn c.r rD (c.r rA) }, 2)
    | 4 => ({ c with pc := c.r rA }, 0)
    | 5 =>
      let c := c.setR 3 (c.pc + 2)
      ({ c with pc := c.r rA }, 0)
    | _ => (c, 2)
  | 2 =>
    let func4 := (insn >>> 9) &&& 15
    let H := (insn >>> 5) &&& 1
    let targetReg := rD + (if H = 1 then 16 else 0)
    let spIdx := (insn >>> 6) &&& 7
    match func4 with
    | 0 => let (c, res) := c.add (c.r rD) (c.r rA) true; (c.setR rD res, 2)
    | 1 =>
      let imm5 := (insn >>> 5) &&& 31
      let (c, res) := c.add (c.r rD) imm5 true
      (c.setR rD res, 2)
    | 2 =>
      let imm5 := (insn >>> 5) &&& 31
      let (c, _) := c.sub (c.r rD) imm5 true
      (c, 2)
    | 10 =>
      (match c.miu with
       | some m =>
         let c := c.setR targetReg (m.readU32 (c.r spIdx))
         c.setR spIdx (c.r spIdx + 4)
       | none => c, 2)
    | 14 =>
      let c := c.setR spIdx (c.r spIdx + 4294967296 - 4)
      (match c.miu with
       | some m => { c with miu := some (m.writeU32 (c.r spIdx) (c.r targetReg)) }
       | none => c, 2)
    | _ => (c, 2)
  | 3 =>
    let imm5 := (insn >>> 4) &&& 31
    let addr := wrap32 (c.r rA + (imm5 <<< 2))
    if (insn >>> 12) &&& 1 = 1 then
      (match c.miu with
       | some m => { c with miu := some (m.writeU32 addr (c.r rD)) }
       | none => c, 2)
    else
      (match c.miu with
       | some m => c.setR rD (m.readU32 addr)
       | none => c, 2)
  | 7 =>
    let imm5 := (insn >>> 5) &&& 31
    let addr := wrap32 (c.r 2 + (imm5 <<< 2))
    if (insn >>> 10) &&& 1 = 1 then
      (match c.miu with
       | some m => { c with miu := some (m.writeU32 addr (c.r rD)) }
       | none => c, 2)
    else
      (match c.miu with
       | some m => c.setR rD (m.readU32 addr)
       | none => c, 2)
  | _ => (c, 2)

/-- `CPU.step` from `cpu.js`: fetch the word at PC, dispatch on the top five
bits, advance PC by the executor's result when it is non-zero, and bump the
cycle and instruction counters.  Returns `false` (state untouched) when the
CPU is halted or has no MIU. -/
def CPU.step (c : CPU) : CPU × Bool :=
  if c.halted then (c, false)
  else
    match c.miu with
    | none => (c, false)
    | some m =>
      let encoded := m.readU32 c.pc
      let OP := (encoded >>> 27) &&& 31
      let cr :=
        match OP with
        | 0x00 => c.execSpForm encoded
        | 0x01 | 0x05 => c.execIForm encoded
        | 0x02 => c.execJForm encoded
        | 0x03 | 0x07 => c.execRixForm encoded
        | 0x04 => c.execBForm encoded
        | 0x10 | 0x11 | 0x12 | 0x13 | 0x14 | 0x15 | 0x16 | 0x17 =>
          c.execMemoryForm encoded
        | 0x08 | 0x09 | 0x0A | 0x0B | 0x0C | 0x0D | 0x0E | 0x0F
        | 0x18 | 0x19 | 0x1A | 0x1B | 0x1C | 0x1D | 0x1E | 0x1F =>
          c.exec16 (encoded &&& 65535)
        | _ => (c, 4)
      let c1 := cr.1
      let c2 := if cr.2 ≠ 0 then { c1 with pc := wrap32 (c1.pc + cr.2) } else c1
      ({ c2 with cycles := c2.cycles + 1, instructions := c2.instructions + 1 }, true)

/-- One timer channel of `uart.js` (the `Timer` class): the four registers
and the parsed control bits.  `rep` is the auto-repeat bit. -/
structure Timer where
  count : Nat
  ctrl : Nat
  cmp : Nat
  stat : Nat
  enabled : Bool
  countDown : Bool
  rep : Bool
  irqEnabled : Bool
  extClock : Bool
  clockScale : Nat
  cyclesUntilTick : Nat

/-- One iteration of the `while (cyclesUntilTick >= scale)` loop body of
`Timer.tick`: subtract `scale`, do the count arithmetic, then the compare
check.  Returns the updated channel and 1 when this tick hit the compare
value (the source then invokes `onCompare` when `irqEnabled`). -/
def Timer.oneTick (t : Timer) (scale : Nat) : Timer × Nat :=
  let t := { t with cyclesUntilTick := t.cyclesUntilTick - scale }
  let t :=
    if t.countDown then
      if t.count = 0 then
        let t := { t with stat := t.stat ||| 2 }
        if t.rep then { t with count := t.cmp } else { t with enabled := false }
      else { t with count := t.count - 1 }
    else
      let cnt := (t.count + 1) % 4294967296
      let t := { t with count := cnt }
      if cnt = 0 then { t with stat := t.stat ||| 2 } else t
  if t.count = t.cmp then
    let t := { t with stat := t.stat ||| 1 }
    if t.rep then ({ t with count := 0 }, 1) else ({ t with enabled := false }, 1)
  else (t, 0)

/-- The `while (cyclesUntilTick >= scale)` loop of `Timer.tick`, with an
explicit structural bound.  Each iteration subtracts `scale ≥ 1` from
`cyclesUntilTick`, so running the loop with `fuel ≥ cyclesUntilTick`
reproduces the source loop exactly (the guard also demands `0 < scale`,
which always holds for `scale = 2 ^ clockScale`).  The returned number
counts the compare hits of this call. -/
def Timer.tickLoop (scale : Nat) : Nat → Timer → Timer × Nat
  | 0, t => (t, 0)
  | fuel + 1, t =>
    if 0 < scale ∧ scale ≤ t.cyclesUntilTick then
      let tc := t.oneTick scale
      let rest := Timer.tickLoop scale fuel tc.1
      (rest.1, tc.2 + rest.2)
    else (t, 0)

/-- `Timer.tick(cycles)` from `uart.js`: accumulate the delivered engine
cycles and run logical ticks while at least `2 ^ scale` cycles are pending.
Besides the updated channel it returns the number of IRQ assertions this
call performed (`onCompare` invocations, i.e. compare hits while
`irqEnabled`) and the source's boolean result `didCompare && irqEnabled`. -/
def Timer.tick (t : Timer) (cycles : Nat) : Timer × Nat × Bool :=
  if t.enabled = false then ({ t with cyclesUntilTick := 0 }, 0, false)
  else
    let scale := 2 ^ t.clockScale
    let t0 := { t with cyclesUntilTick := t.cyclesUntilTick + cycles }
    let res := Timer.tickLoop scale t0.cyclesUntilTick t0
    (res.1, (if t.irqEnabled then res.2 else 0), decide (0 < res.2) && t.irqEnabled)

/-- The UART of `uart.js`: the register block and the RX FIFO.  The TX
console buffering and statistics are logging cosmetics and are not part of
the register-level contract. -/
structure Uart where
  txBuf : Nat
  rxBuf : Nat
  control : Nat
  status : Nat
  baud : Nat
  rxQueue : List Nat

/-- `UART.reset` / power-on register values (STATUS = TX-empty | TX-idle). -/
def Uart.reset : Uart :=
  { txBuf := 0, rxBuf := 0, control := 0, status := 144, baud := 0, rxQueue := [] }

/-- `UART.receiveData(byte)` (the `enqueueRx` external API): append the byte
to the RX FIFO, set the RX-ready status bit (0x40) and place the byte in the
RX data register. -/
def Uart.receiveData (u : Uart) (b : Nat) : Uart :=
  { u with
      rxQueue := u.rxQueue ++ [b &&& 255]
      status := u.status ||| 64
      rxBuf := b &&& 255 }

/-- `UART.getNextRXByte` as written in the source (note: never invoked by
`UART.readU32`). -/
def Uart.getNextRXByte (u : Uart) : Nat × Uart :=
  match u.rxQueue with
  | b :: rest => (b, { u with rxQueue := rest })
  | [] => (0, { u with status := u.status &&& not32 64 })

/-- `UART.readU32(address)`: register reads.  Reading offset 0 returns the
RX data register and clears the RX-ready bit (the FIFO is not consulted). -/
def Uart.readU32 (u : Uart) (address : Nat) : Nat × Uart :=
  let offset := address &&& 65535
  if offset = 0 then (u.rxBuf, { u with status := u.status &&& not32 64 })
  else if offset = 8 then (u.control, u)
  else if offset = 12 then (u.status, u)
  else if offset = 16 then (u.baud, u)
  else (0, u)

/-- The interrupt controller of `interrupt.js`: MASK, PRIO and STATUS
registers (ACK is write-only and holds no state). -/
structure Intc where
  mask : Nat
  prio : Nat
  status : Nat

/-- `InterruptController.trigger(cpu, irqNumber)`: set the STATUS bit, then
enter the CPU exception if the MASK bit is set and a CPU is attached.  The
second component records the `cpu.exception(n)` invocation this call made
(`none` when the exception was not entered). -/
def Intc.trigger (i : Intc) (cpuPresent : Bool) (irqNumber : Nat) : Intc × Option Nat :=
  if irqNumber > 31 then (i, none)
  else
    let i := { i with status := i.status ||| (1 <<< irqNumber) }
    let isEnabled := i.mask &&& (1 <<< irqNumber) ≠ 0
    if cpuPresent ∧ isEnabled then (i, some irqNumber) else (i, none)

/-- `InterruptController.writeU32(address, value)`: MASK and PRIO stores and
the write-1-to-clear ACK register; STATUS writes are ignored.  The second
component records any `cpu.exception` invocation — the method never makes
one, which is exactly the "no replay on unmasking" behaviour. -/
def Intc.writeU32 (i : Intc) (address v : Nat) : Intc × Option Nat :=
  let offset := address &&& 65535
  if offset = 0 then ({ i with mask := wrap32 v }, none)
  else if offset = 4 then ({ i with prio := wrap32 v }, none)
  else if offset = 8 then (i, none)
  else if offset = 12 then ({ i with status := i.status &&& not32 (wrap32 v) }, none)
  else (i, none)

/-- `InterruptController.readU32(address)`. -/
def Intc.readU32 (i : Intc) (address : Nat) : Nat :=
  let offset := address &&& 65535
  if offset = 0 then i.mask
  else if offset = 4 then i.prio
  else if offset = 8 then i.status
  else 0

/-- A registered MMIO handler of `io.js` (`registerHandler`): the read and
write functions close over the owning peripheral, whose state has the
abstract type `P` and is threaded explicitly. -/
structure IOHandler (P : Type) where
  readFn : P → Nat × P
  writeFn : P → Nat → P

/-- `IOMemoryRegion`: backing word cells, the sparse handler map keyed by
word offset, and the connected peripheral state. -/
structure IORegion (P : Type) where
  size : Nat
  registers : Nat → Nat
  handlers : Nat → Option (IOHandler P)
  periph : P

/-- The word index of a byte offset: `(offset >>> 2) & (size / 4 - 1)`. -/
def IORegion.wordIndex {P : Type} (r : IORegion P) (offset : Nat) : Nat :=
  (offset >>> 2) &&& (r.size >>> 2 - 1)

/-- `IOMemoryRegion.readU32`: delegate to the handler when one is
registered, otherwise read the internal word cell. -/
def IORegion.readU32 {P : Type} (r : IORegion P) (offset : Nat) : Nat × IORegion P :=
  let w := r.wordIndex offset
  match r.handlers w with
  | some h =>
    let vp := h.readFn r.periph
    (wrap32 vp.1, { r with periph := vp.2 })
  | none => (wrap32 (r.registers w), r)

/-- `IOMemoryRegion.writeU32`: delegate to the handler when one is
registered, otherwise store into the internal word cell.  The returned list
records the handler-write invocations (word index and value) this call
made. -/
def IORegion.writeU32 {P : Type} (r : IORegion P) (offset v : Nat) :
    IORegion P × List (Nat × Nat) :=
  let v := wrap32 v
  let w := r.wordIndex offset
  match r.handlers w with
  | some h => ({ r with periph := h.writeFn r.periph v }, [(w, v)])
  | none => ({ r with registers := updFn r.registers w v }, [])

/-- `IOMemoryRegion.readU8`: read the containing word and extract the byte. -/
def IORegion.readU8 {P : Type} (r : IORegion P) (offset : Nat) : Nat × IORegion P :=
  let wr := r.readU32 (offset &&& not32 3)
  let shift := (offset &&& 3) * 8
  ((wr.1 >>> shift) &&& 255, wr.2)

/-- `IOMemoryRegion.writeU8`: read-modify-write of the containing word. -/
def IORegion.writeU8 {P : Type} (r : IORegion P) (offset v : Nat) :
    IORegion P × List (Nat × Nat) :=
  let addr := offset &&& not32 3
  let shift := (offset &&& 3) * 8
  let wr := r.readU32 addr
  let word := (wr.1 &&& not32 (255 <<< shift)) ||| ((v &&& 255) <<< shift)
  wr.2.writeU32 addr word

/-- `IOMemoryRegion.writeU16`: read-modify-write of the containing word. -/
def IORegion.writeU16 {P : Type} (r : IORegion P) (offset v : Nat) :
    IORegion P × List (Nat × Nat) :=
  let addr := offset &&& not32 3
  let shift := (offset &&& 2) * 8
  let wr := r.readU32 addr
  let word := (wr.1 &&& not32 (65535 <<< shift)) ||| ((v &&& 65535) <<< shift)
  wr.2.writeU32 addr word

/-- The engine states of `main.js` (`EmulatorState`). -/
inductive EngineState | STOPPED | RUNNING | PAUSED | ERROR | LOADING
deriving DecidableEq

/-- The ROM-content-dependent part of `HyperScanEngine.loadROM`, after the
hardware has been rebuilt: endianness detection on the first word,
byte-swapping in 4-byte groups when it fires, committing the image to a
fresh flash region, magic-based entry-PC selection, and the final
entry-opcode check (a failing check throws, which `handleFatalError` turns
into the ERROR state — with the flash already committed). -/
structure LoadResult where
  flash : ArrayRegion
  state : EngineState
  pc : Nat

/-- The 4-byte group swap of `loadROM` (a trailing partial group is copied
unchanged). -/
def romByteSwap (data : List Nat) : List Nat :=
  match data with
  | b0 :: b1 :: b2 :: b3 :: rest => b3 :: b2 :: b1 :: b0 :: romByteSwap rest
  | rest => rest

/-- Endianness detection of `loadROM`: byte-swap the image in 4-byte groups
when the first word's opcode field is valid in BE order but not in LE order. -/
def romSwapDetect (data : List Nat) : List Nat × Bool :=
  let b0 := data.getD 0 0
  let b1 := data.getD 1 0
  let b2 := data.getD 2 0
  let b3 := data.getD 3 0
  let insnLE := (b0 <<< 24) ||| (b1 <<< 16) ||| (b2 <<< 8) ||| b3
  let opLE := (insnLE >>> 27) &&& 31
  let insnBE := (b3 <<< 24) ||| (b2 <<< 16) ||| (b1 <<< 8) ||| b0
  let opBE := (insnBE >>> 27) &&& 31
  if opLE > 31 ∧ opBE ≤ 31 then (romByteSwap data, true) else (data, false)

/-- The `aM82` magic probe of `loadROM`: a big-endian 32-bit word equal to
0x614D3832 at byte offset 0x4E, only consulted when the image is longer than
0x4E + 4 bytes. -/
def romMagicPresent (data : List Nat) : Bool :=
  if data.length > 78 + 4 then
    let magic := (data.getD 78 0 <<< 24) ||| (data.getD 79 0 <<< 16) |||
      (data.getD 80 0 <<< 8) ||| data.getD 81 0
    magic = 1632253490
  else false

/-- `loadROM` over a given flash region: detect endianness, commit the
image at flash offset 0, choose the entry PC, and verify the entry opcode.
The final check `finalOP > 0x1F` throws on failure, sending the engine to
ERROR; on success the engine ends PAUSED. -/
def loadROM (flash : ArrayRegion) (data0 : List Nat) : LoadResult :=
  let data := (romSwapDetect data0).1
  let flash := flash.load data 0
  let bootAddr := if romMagicPresent data then 2650800384 else 2650800128
  let finalInsn := flash.readU32 (bootAddr &&& 16777215)
  let finalOP := (finalInsn >>> 27) &&& 31
  if finalOP > 31 then { flash := flash, state := .ERROR, pc := bootAddr }
  else { flash := flash, state := .PAUSED, pc := bootAddr }

/-! ### Lanes of a 32-bit word (used to state the read-modify-write claim) -/

/-- The byte in lane `i` (0 = least significant) of a 32-bit word. -/
def byteLane (x i : Nat) : Nat := x / 2 ^ (8 * i) % 2 ^ 8

/-- The halfword in lane `i` (0 = least significant) of a 32-bit word. -/
def halfLane (x i : Nat) : Nat := x / 2 ^ (16 * i) % 2 ^ 16

/-! ### Concrete machines used by the scenario claims -/

/-- An 8 MiB zero-filled, writable flash region. -/
def zeroFlash : ArrayRegion := { size := 8388608, u8 := fun _ => 0, writable := true }

/-- A flash region holding the given bytes at offset 0. -/
def flashWith (bytes : List Nat) : ArrayRegion := zeroFlash.load bytes 0

/-- A MIU with only the flash segment 0x9E mapped. -/
def miuWith (flash : ArrayRegion) : Miu :=
  { segments := fun s => if s = 158 then some flash else none }

/-- A freshly reset CPU (the state `CPU.reset()` establishes) attached to the
given MIU, with the PC set to the given boot address. -/
def bootCPU (m : Option Miu) (bootPC : Nat) : CPU :=
  { r := fun _ => 0, cr := fun _ => 0, sr := fun _ => 0, CEL := 0, CEH := 0,
    pc := bootPC, N := 0, Z := 0, C := 0, V := 0, T := 0,
    cycles := 0, instructions := 0, halted := false, miu := m }

/-- Scenario S1: flash holds the word 0x00000000 (nop) at 0x9E000000 and the
CPU boots there. -/
def s1CPU : CPU := bootCPU (some (miuWith zeroFlash)) 2650800128

/-- A halted CPU with no MIU attached. -/
def haltedCPU : CPU :=
  { bootCPU none 0 with halted := true }

/-- A booted machine whose first flash word is 0x30000210: OP = 0x06
(CR-form) with sub-opcode 0x84, i.e. the `rte` encoding; cr5 holds a distinct
return address 0x1234. -/
def c6CPU : CPU :=
  { bootCPU (some (miuWith (flashWith [16, 2, 0, 48]))) 2650800128 with
      cr := fun i => if i = 5 then 4660 else 0 }

/-- A booted machine whose flash holds `cmp r0, r0` (0x00000018) followed by
`mfsr r1, sr0` (0x00400050). -/
def c9CPU : CPU :=
  bootCPU (some (miuWith (flashWith [24, 0, 0, 0, 80, 0, 64, 0]))) 2650800128

/-- A CPU with distinctive flags, PC and cr0/cr3 values, used to witness the
exception-entry contract at cause 5. -/
def c2cpu : CPU :=
  { r := fun _ => 0, cr := fun i => if i = 3 then 256 else if i = 0 then 1 else 0,
    sr := fun _ => 0, CEL := 0, CEH := 0, pc := 66, N := 1, Z := 0, C := 1, V := 0,
    T := 1, cycles := 0, instructions := 0, halted := false, miu := none }

/-- A count-up timer channel: cmp = 3, scale = 1, irq enabled, count 0. -/
def t3a : Timer :=
  { count := 0, ctrl := 0, cmp := 3, stat := 0, enabled := true, countDown := false,
    rep := false, irqEnabled := true, extClock := false, clockScale := 1,
    cyclesUntilTick := 0 }

/-- A channel initialized with COUNT == CMP (= 5), scale = 2. -/
def t3u : Timer := { t3a with count := 5, cmp := 5, clockScale := 2 }

/-- An interrupt controller whose MASK enables exactly line 5. -/
def intc7 : Intc := { mask := 32, prio := 0, status := 0 }

/-- A concrete MMIO handler over a `Nat` peripheral state: reads return the
word 0xAABBCCDD and bump the state, writes store the written word. -/
def ioh8 : IOHandler Nat :=
  { readFn := fun p => (2864434397, p + 1), writeFn := fun _ v => v }

/-- A 256 KiB I/O region with `ioh8` registered at word offset 3. -/
def ioreg8 : IORegion Nat :=
  { size := 262144, registers := fun _ => 0,
    handlers := fun w => if w = 3 then some ioh8 else none, periph := 0 }

/-! ### Contract propositions of the claims -/

/-- The post-state contract of claim C2: exception entry with cause `cause`
vectors PC, saves PC into cr5 and the packed flags into sr0 = cr1, clears
cr0 bit 0, and `rte` restores PC and the flags. -/
def exceptionRteContract (c : CPU) (cause : Nat) : Prop :=
  (c.exception cause).pc = (c.cr 3 + cause * 4) % 4294967296 ∧
  (c.exception cause).cr 5 = c.pc ∧
  (c.exception cause).sr 0 = (c.exception cause).cr 1 ∧
  (c.exception cause).sr 0 =
    (c.N <<< 31) ||| (c.Z <<< 30) ||| (c.C <<< 29) ||| (c.V <<< 28) ||| c.T ∧
  (c.exception cause).cr 0 &&& 1 = 0 ∧
  ((c.exception cause).rte).pc = c.pc ∧
  ((c.exception cause).rte).N = c.N ∧
  ((c.exception cause).rte).Z = c.Z ∧
  ((c.exception cause).rte).C = c.C ∧
  ((c.exception cause).rte).V = c.V ∧
  ((c.exception cause).rte).T = c.T

/-- The contract of claim C3: channel `t` (count-up from 0) fed exactly
`cmp * 2 ^ scale` cycles sets STAT bit 0 and raises the IRQ exactly once;
channel `u`, fed fewer cycles than one logical tick needs, raises nothing
and leaves STAT unchanged. -/
def timerFireContract (t u : Timer) (pre : Nat) : Prop :=
  ((t.tick (t.cmp * 2 ^ t.clockScale)).1.stat &&& 1 = 1 ∧
    (t.tick (t.cmp * 2 ^ t.clockScale)).2.1 = 1) ∧
  ((u.tick pre).2.1 = 0 ∧ (u.tick pre).1.stat = u.stat)

/-- The contract of claim C7 for one IRQ line: the STATUS bit is set, the
exception is entered exactly when the MASK bit was set, MASK writes never
enter an exception, and the pending bit survives a MASK write. -/
def triggerContract (i : Intc) (n : Nat) : Prop :=
  ((i.trigger true n).1.status.testBit n = true) ∧
  (i.mask.testBit n = true → (i.trigger true n).2 = some n) ∧
  (i.mask.testBit n = false → (i.trigger true n).2 = none) ∧
  (∀ a v, (((i.trigger true n).1.writeU32 a v).2 = none)) ∧
  (∀ v, (((i.trigger true n).1.writeU32 0 v).1.status.testBit n = true))

/-- The contract of claim C8: a byte (resp. halfword) write into a handled
word invokes the word handler exactly once, with the old word in which only
the addressed byte (resp. halfword) lane has been replaced. -/
def mmioRmwContract {P : Type} (r : IORegion P) (off v : Nat) : Prop :=
  (∃ m, (r.writeU8 off v).2 = [(r.wordIndex off, m)] ∧
    ∀ i, i < 4 → byteLane m i =
      if i = (off &&& 3) then v &&& 255
      else byteLane (r.readU32 (off &&& not32 3)).1 i) ∧
  (∃ m, (r.writeU16 off v).2 = [(r.wordIndex off, m)] ∧
    ∀ i, i < 2 → halfLane m i =
      if i = (off &&& 2) >>> 1 then v &&& 65535
      else halfLane (r.readU32 (off &&& not32 3)).1 i)

/-! ### Cycle-counter preservation of the instruction executors

`CPU.step` is the only place that touches the cycle counter; every executor
and ALU helper leaves it unchanged. -/

set_option maxRecDepth 10000

@[simp] theorem setR_cycles (c : CPU) (i v : Nat) : (c.setR i v).cycles = c.cycles := rfl

@[simp] theorem updateBasicFlags_cycles (c : CPU) (res : Nat) :
    (c.updateBasicFlags res).cycles = c.cycles := rfl

@[simp] theorem packSR0_cycles (c : CPU) : c.packSR0.cycles = c.cycles := rfl

@[simp] theorem unpackSR0_cycles (c : CPU) : c.unpackSR0.cycles = c.cycles := rfl

@[simp] theorem exception_cycles (c : CPU) (cause : Nat) :
    (c.exception cause).cycles = c.cycles := rfl

@[simp] theorem add_cycles (c : CPU) (a b : Nat) (uf : Bool) :
    (c.add a b uf).1.cycles = c.cycles := by cases uf <;> rfl

@[simp] theorem addc_cycles (c : CPU) (a b : Nat) (uf : Bool) :
    (c.addc a b uf).1.cycles = c.cycles := by cases uf <;> rfl

@[simp] theorem sub_cycles (c : CPU) (a b : Nat) (uf : Bool) :
    (c.sub a b uf).1.cycles = c.cycles := by cases uf <;> rfl

@[simp] theorem subc_cycles (c : CPU) (a b : Nat) (uf : Bool) :
    (c.subc a b uf).1.cycles = c.cycles := by cases uf <;> rfl

@[simp] theorem neg_cycles (c : CPU) (a : Nat) (uf : Bool) :
    (c.neg a uf).1.cycles = c.cycles := by cases uf <;> rfl

@[simp] theorem bitOp_cycles (c : CPU) (a b : Nat) (kind : BitOpKind) (uf : Bool) :
    (c.bitOp a b kind uf).1.cycles = c.cycles := by cases kind <;> cases uf <;> rfl

@[simp] theorem sll_cycles (c : CPU) (a sa : Nat) (uf : Bool) :
    (c.sll a sa uf).1.cycles = c.cycles := by
  cases uf <;> simp [CPU.sll] <;> split <;> rfl

@[simp] theorem srl_cycles (c : CPU) (a sa : Nat) (uf : Bool) :
    (c.srl a sa uf).1.cycles = c.cycles := by
  cases uf <;> simp [CPU.srl] <;> split <;> rfl

@[simp] theorem sra_cycles (c : CPU) (a sa : Nat) (uf : Bool) :
    (c.sra a sa uf).1.cycles = c.cycles := by
  cases uf <;> simp [CPU.sra] <;> split <;> rfl

@[simp] theorem ror_cycles (c : CPU) (a sa : Nat) (uf : Bool) :
    (c.ror a sa uf).1.cycles = c.cycles := by
  cases uf <;> simp [CPU.ror] <;> split <;> rfl

@[simp] theorem rol_cycles (c : CPU) (a sa : Nat) (uf : Bool) :
    (c.rol a sa uf).1.cycles = c.cycles := by
  cases uf <;> simp [CPU.rol] <;> split <;> rfl

@[simp] theorem rorc_cycles (c : CPU) (a : Nat) (uf : Bool) :
    (c.rorc a uf).1.cycles = c.cycles := by cases uf <;> rfl

@[simp] theorem rolc_cycles (c : CPU) (a : Nat) (uf : Bool) :
    (c.rolc a uf).1.cycles = c.cycles := by cases uf <;> rfl

@[simp] theorem extsb_cycles (c : CPU) (a : Nat) (uf : Bool) :
    (c.extsb a uf).1.cycles = c.cycles := by
  cases uf <;> simp [CPU.extsb] <;> split <;> rfl

@[simp] theorem extsh_cycles (c : CPU) (a : Nat) (uf : Bool) :
    (c.extsh a uf).1.cycles = c.cycles := by
  cases uf <;> simp [CPU.extsh] <;> split <;> rfl

@[simp] theorem extzb_cycles (c : CPU) (a : Nat) (uf : Bool) :
    (c.extzb a uf).1.cycles = c.cycles := by cases uf <;> rfl

@[simp] theorem extzh_cycles (c : CPU) (a : Nat) (uf : Bool) :
    (c.extzh a uf).1.cycles = c.cycles := by cases uf <;> rfl

@[simp] theorem bitclr_cycles (c : CPU) (a b : Nat) (uf : Bool) :
    (c.bitclr a b uf).1.cycles = c.cycles := by cases uf <;> rfl

@[simp] theorem bitset_cycles (c : CPU) (a b : Nat) (uf : Bool) :
    (c.bitset a b uf).1.cycles = c.cycles := by cases uf <;> rfl

@[simp] theorem bittst_cycles (c : CPU) (a b : Nat) :
    (c.bittst a b).cycles = c.cycles := rfl

@[simp] theorem bittgl_cycles (c : CPU) (a b : Nat) (uf : Bool) :
    (c.bittgl a b uf).1.cycles = c.cycles := by cases uf <;> rfl

@[simp] theorem execMul_cycles (c : CPU) (a b : Nat) :
    (c.execMul a b).cycles = c.cycles := rfl

@[simp] theorem execMulu_cycles (c : CPU) (a b : Nat) :
    (c.execMulu a b).cycles = c.cycles := rfl

@[simp] theorem execDiv_cycles (c : CPU) (a b : Nat) :
    (c.execDiv a b).cycles = c.cycles := by
  simp only [CPU.execDiv] ; split <;> rfl

@[simp] theorem execDivu_cycles (c : CPU) (a b : Nat) :
    (c.execDivu a b).cycles = c.cycles := by
  simp only [CPU.execDivu] ; split <;> rfl

@[simp] theorem moveFromCE_cycles (c : CPU) (rD rB : Nat) :
    (c.moveFromCE rD rB).cycles = c.cycles := by
  simp only [CPU.moveFromCE] ; split <;> (try split) <;> rfl

@[simp] theorem moveToCE_cycles (c : CPU) (rD rB : Nat) :
    (c.moveToCE rD rB).cycles = c.cycles := by
  simp only [CPU.moveToCE] ; split <;> (try split) <;> rfl

set_option maxHeartbeats 2000000 in
theorem execSpForm_cycles (c : CPU) (insn : Nat) :
    (c.execSpForm insn).1.cycles = c.cycles := by
  unfold CPU.execSpForm
  simp only []
  repeat' split
  all_goals simp

set_option maxHeartbeats 2000000 in
theorem execIForm_cycles (c : CPU) (insn : Nat) :
    (c.execIForm insn).1.cycles = c.cycles := by
  unfold CPU.execIForm
  simp only []
  repeat' split
  all_goals simp

set_option maxHeartbeats 2000000 in
theorem execJForm_cycles (c : CPU) (insn : Nat) :
    (c.execJForm insn).1.cycles = c.cycles := by
  unfold CPU.execJForm
  simp only []
  repeat' split
  all_goals simp

set_option maxHeartbeats 2000000 in
theorem execBForm_cycles (c : CPU) (insn : Nat) :
    (c.execBForm insn).1.cycles = c.cycles := by
  unfold CPU.execBForm
  simp only []
  repeat' split
  all_goals simp

set_option maxHeartbeats 2000000 in
theorem execRixForm_cycles (c : CPU) (insn : Nat) :
    (c.execRixForm insn).1.cycles = c.cycles := by
  unfold CPU.execRixForm
  simp only []
  repeat' split
  all_goals simp

set_option maxHeartbeats 2000000 in
theorem execMemoryForm_cycles (c : CPU) (insn : Nat) :
    (c.execMemoryForm insn).1.cycles = c.cycles := by
  unfold CPU.execMemoryForm
  simp only []
  repeat' split
  all_goals simp

set_option maxHeartbeats 2000000 in
theorem exec16_cycles (c : CPU) (insn : Nat) :
    (c.exec16 insn).1.cycles = c.cycles := by
  unfold CPU.exec16
  simp only []
  repeat' split
  all_goals simp

/-! ### Bit-level helper lemmas -/

theorem lor_two_pow_and_self (s n : Nat) : (s ||| 2 ^ n) &&& 2 ^ n = 2 ^ n := by
  apply Nat.eq_of_testBit_eq
  intro j
  by_cases h : j = n <;> simp [Nat.testBit_two_pow, h, Ne.symm]

theorem land_not32_two_pow_and_self (s n : Nat) (hn : n < 32) :
    (s &&& not32 (2 ^ n)) &&& 2 ^ n = 0 := by
  have h32 : not32 (2 ^ n) = 2 ^ 32 - 1 ^^^ 2 ^ n := by
    rw [not32]
    norm_num
  apply Nat.eq_of_testBit_eq
  intro j
  rw [h32]
  simp only [Nat.testBit_and, Nat.testBit_xor, Nat.testBit_two_pow,
    Nat.testBit_two_pow_sub_one, Nat.zero_testBit]
  by_cases h : n = j
  · subst h
    simp [hn]
  · simp [h]

theorem setLane_testBit (x v w s : Nat) (hs : s + w ≤ 32) (j : Nat) :
    ((x &&& not32 ((2 ^ w - 1) <<< s)) ||| ((v &&& (2 ^ w - 1)) <<< s)).testBit j =
      (if s ≤ j ∧ j < s + w then v.testBit (j - s)
       else (x.testBit j && decide (j < 32))) := by
  have h32 : not32 ((2 ^ w - 1) <<< s) = 2 ^ 32 - 1 ^^^ ((2 ^ w - 1) <<< s) := by
    rw [not32] ; norm_num
  rw [h32]
  simp only [Nat.testBit_or, Nat.testBit_and, Nat.testBit_xor, Nat.testBit_shiftLeft,
    Nat.testBit_two_pow_sub_one]
  by_cases h1 : s ≤ j
  · by_cases h2 : j < s + w
    · have hj32 : j < 32 := by omega
      have hjs : j - s < w := by omega
      simp [h1, h2, hj32, hjs, ge_iff_le]
    · have hjs : ¬ (j - s < w) := by omega
      by_cases hj32 : j < 32 <;> simp [h1, h2, hj32, hjs, ge_iff_le]
  · have hns : ¬ (s ≤ j ∧ j < s + w) := by omega
    by_cases hj32 : j < 32 <;> simp [h1, hns, hj32, ge_iff_le]

theorem setByte_testBit (x v s j : Nat) (hs : s + 8 ≤ 32) :
    ((x &&& not32 (255 <<< s)) ||| ((v &&& 255) <<< s)).testBit j =
      (if s ≤ j ∧ j < s + 8 then v.testBit (j - s)
       else (x.testBit j && decide (j < 32))) := by
  have h255 : (255 : Nat) = 2 ^ 8 - 1 := by norm_num
  rw [h255]
  exact setLane_testBit x v 8 s hs j

theorem setHalf_testBit (x v s j : Nat) (hs : s + 16 ≤ 32) :
    ((x &&& not32 (65535 <<< s)) ||| ((v &&& 65535) <<< s)).testBit j =
      (if s ≤ j ∧ j < s + 16 then v.testBit (j - s)
       else (x.testBit j && decide (j < 32))) := by
  have h65535 : (65535 : Nat) = 2 ^ 16 - 1 := by norm_num
  rw [h65535]
  exact setLane_testBit x v 16 s hs j

theorem testBit_255 (j : Nat) : Nat.testBit 255 j = decide (j < 8) := by
  rw [show (255 : Nat) = 2 ^ 8 - 1 by norm_num, Nat.testBit_two_pow_sub_one]

theorem testBit_65535 (j : Nat) : Nat.testBit 65535 j = decide (j < 16) := by
  rw [show (65535 : Nat) = 2 ^ 16 - 1 by norm_num, Nat.testBit_two_pow_sub_one]

theorem testBit_and_255 (v j : Nat) :
    (v &&& 255).testBit j = (decide (j < 8) && v.testBit j) := by
  simp [Nat.testBit_and, testBit_255, Bool.and_comm]

theorem testBit_and_65535 (v j : Nat) :
    (v &&& 65535).testBit j = (decide (j < 16) && v.testBit j) := by
  simp [Nat.testBit_and, testBit_65535, Bool.and_comm]

theorem byteLane_testBit (x i j : Nat) :
    (byteLane x i).testBit j = (decide (j < 8) && x.testBit (8 * i + j)) := by
  rw [byteLane, ← Nat.shiftRight_eq_div_pow]
  simp only [Nat.testBit_mod_two_pow, Nat.testBit_shiftRight]

theorem halfLane_testBit (x i j : Nat) :
    (halfLane x i).testBit j = (decide (j < 16) && x.testBit (16 * i + j)) := by
  rw [halfLane, ← Nat.shiftRight_eq_div_pow]
  simp only [Nat.testBit_mod_two_pow, Nat.testBit_shiftRight]

theorem byteLane_merge (word v k i : Nat) (hk : k ≤ 3) (hi : i < 4) :
    byteLane ((word &&& not32 (255 <<< (k * 8))) ||| ((v &&& 255) <<< (k * 8))) i =
      if i = k then v &&& 255 else byteLane word i := by
  by_cases hik : i = k
  · subst hik
    rw [if_pos rfl]
    apply Nat.eq_of_testBit_eq
    intro j
    rw [byteLane_testBit, setByte_testBit word v (i * 8) (8 * i + j) (by omega),
      testBit_and_255]
    by_cases hj : j < 8
    · have hin : i * 8 ≤ 8 * i + j ∧ 8 * i + j < i * 8 + 8 := by omega
      have hsub : 8 * i + j - i * 8 = j := by omega
      simp [hj, hin, hsub]
    · have hin : ¬ (i * 8 ≤ 8 * i + j ∧ 8 * i + j < i * 8 + 8) := by omega
      simp [hj, hin]
  · rw [if_neg hik]
    apply Nat.eq_of_testBit_eq
    intro j
    rw [byteLane_testBit, setByte_testBit word v (k * 8) (8 * i + j) (by omega),
      byteLane_testBit]
    by_cases hj : j < 8
    · have hin : ¬ (k * 8 ≤ 8 * i + j ∧ 8 * i + j < k * 8 + 8) := by omega
      have h32 : 8 * i + j < 32 := by omega
      simp [hj, hin, h32]
    · simp [hj]

theorem halfLane_merge (word v k i : Nat) (hk : k ≤ 1) (hi : i < 2) :
    halfLane ((word &&& not32 (65535 <<< (k * 16))) ||| ((v &&& 65535) <<< (k * 16))) i =
      if i = k then v &&& 65535 else halfLane word i := by
  by_cases hik : i = k
  · subst hik
    rw [if_pos rfl]
    apply Nat.eq_of_testBit_eq
    intro j
    rw [halfLane_testBit, setHalf_testBit word v (i * 16) (16 * i + j) (by omega),
      testBit_and_65535]
    by_cases hj : j < 16
    · have hin : i * 16 ≤ 16 * i + j ∧ 16 * i + j < i * 16 + 16 := by omega
      have hsub : 16 * i + j - i * 16 = j := by omega
      simp [hj, hin, hsub]
    · have hin : ¬ (i * 16 ≤ 16 * i + j ∧ 16 * i + j < i * 16 + 16) := by omega
      simp [hj, hin]
  · rw [if_neg hik]
    apply Nat.eq_of_testBit_eq
    intro j
    rw [halfLane_testBit, setHalf_testBit word v (k * 16) (16 * i + j) (by omega),
      halfLane_testBit]
    by_cases hj : j < 16
    · have hin : ¬ (k * 16 ≤ 16 * i + j ∧ 16 * i + j < k * 16 + 16) := by omega
      have h32 : 16 * i + j < 32 := by omega
      simp [hj, hin, h32]
    · simp [hj]

theorem packBits_roundtrip (n z cc v t : Nat)
    (hn : n ≤ 1) (hz : z ≤ 1) (hc : cc ≤ 1) (hv : v ≤ 1) (ht : t ≤ 1) :
    ((n <<< 31) ||| (z <<< 30) ||| (cc <<< 29) ||| (v <<< 28) ||| t) >>> 31 % 2 = n ∧
    ((n <<< 31) ||| (z <<< 30) ||| (cc <<< 29) ||| (v <<< 28) ||| t) >>> 30 % 2 = z ∧
    ((n <<< 31) ||| (z <<< 30) ||| (cc <<< 29) ||| (v <<< 28) ||| t) >>> 29 % 2 = cc ∧
    ((n <<< 31) ||| (z <<< 30) ||| (cc <<< 29) ||| (v <<< 28) ||| t) >>> 28 % 2 = v ∧
    ((n <<< 31) ||| (z <<< 30) ||| (cc <<< 29) ||| (v <<< 28) ||| t) % 2 = t ∧
    ((n <<< 31) ||| (z <<< 30) ||| (cc <<< 29) ||| (v <<< 28) ||| t) < 4294967296 := by
  rcases Nat.le_one_iff_eq_zero_or_eq_one.mp hn with h | h <;> subst h <;>
  rcases Nat.le_one_iff_eq_zero_or_eq_one.mp hz with h | h <;> subst h <;>
  rcases Nat.le_one_iff_eq_zero_or_eq_one.mp hc with h | h <;> subst h <;>
  rcases Nat.le_one_iff_eq_zero_or_eq_one.mp hv with h | h <;> subst h <;>
  rcases Nat.le_one_iff_eq_zero_or_eq_one.mp ht with h | h <;> subst h <;> decide

/-! ### Timer loop lemmas -/

theorem oneTick_up_nofire (t : Timer) (scale : Nat) (hcd : t.countDown = false)
    (hlt : t.count + 1 < 4294967296) (hne : t.count + 1 ≠ t.cmp) :
    t.oneTick scale =
      ({ t with
          cyclesUntilTick := t.cyclesUntilTick - scale
          count := t.count + 1 }, 0) := by
  have hmod : (t.count + 1) % 4294967296 = t.count + 1 := Nat.mod_eq_of_lt hlt
  have hnz : t.count + 1 ≠ 0 := by omega
  unfold Timer.oneTick
  simp only [hcd, Bool.false_eq_true, if_false, hmod]
  simp only [hnz, ite_false, if_false]
  rw [if_neg hne]

theorem oneTick_up_fire_rep (t : Timer) (scale : Nat) (hcd : t.countDown = false)
    (hlt : t.count + 1 < 4294967296) (heq : t.count + 1 = t.cmp) (hr : t.rep = true) :
    t.oneTick scale =
      ({ t with
          cyclesUntilTick := t.cyclesUntilTick - scale
          count := 0
          stat := t.stat ||| 1 }, 1) := by
  have hmod : (t.count + 1) % 4294967296 = t.count + 1 := Nat.mod_eq_of_lt hlt
  have hnz : t.count + 1 ≠ 0 := by omega
  unfold Timer.oneTick
  simp only [hcd, Bool.false_eq_true, if_false, hmod]
  simp only [hnz, ite_false, if_false]
  rw [if_pos heq, if_pos hr]

theorem oneTick_up_fire_norep (t : Timer) (scale : Nat) (hcd : t.countDown = false)
    (hlt : t.count + 1 < 4294967296) (heq : t.count + 1 = t.cmp) (hr : t.rep = false) :
    t.oneTick scale =
      ({ t with
          cyclesUntilTick := t.cyclesUntilTick - scale
          count := t.count + 1
          stat := t.stat ||| 1
          enabled := false }, 1) := by
  have hmod : (t.count + 1) % 4294967296 = t.count + 1 := Nat.mod_eq_of_lt hlt
  have hnz : t.count + 1 ≠ 0 := by omega
  unfold Timer.oneTick
  simp only [hcd, Bool.false_eq_true, if_false, hmod]
  simp only [hnz, ite_false, if_false]
  rw [if_pos heq, if_neg (by simp [hr])]

theorem tickLoop_done (scale fuel : Nat) (t : Timer)
    (h : t.cyclesUntilTick < scale) :
    Timer.tickLoop scale fuel t = (t, 0) := by
  cases fuel with
  | zero => rfl
  | succ f =>
    rw [Timer.tickLoop, if_neg]
    omega

theorem tickLoop_countUp_fires :
    ∀ (k : Nat) (t : Timer) (fuel scale : Nat),
    0 < scale → 0 < k → t.countDown = false → t.count + k = t.cmp →
    t.cmp < 4294967296 → t.cyclesUntilTick = k * scale →
    t.cyclesUntilTick ≤ fuel →
    (Timer.tickLoop scale fuel t).1.stat &&& 1 = 1 ∧
      (Timer.tickLoop scale fuel t).2 = 1 := by
  intro k
  induction k with
  | zero => intro t fuel scale _ hk; omega
  | succ k ih =>
    intro t fuel scale hs hk hcd hsum hlt hcut hfuel
    have hmul : (k + 1) * scale = k * scale + scale := by ring
    obtain ⟨f, rfl⟩ : ∃ f, fuel = f + 1 := ⟨fuel - 1, by omega⟩
    rw [Timer.tickLoop, if_pos ⟨hs, by omega⟩]
    simp only []
    rcases Nat.eq_zero_or_pos k with hk0 | hk0
    · subst hk0
      have hfire : t.count + 1 = t.cmp := by omega
      by_cases hr : t.rep
      · simp only [oneTick_up_fire_rep t scale hcd (by omega) hfire hr]
        rw [tickLoop_done _ _ _ (by simp ; omega)]
        constructor
        · simpa using lor_two_pow_and_self t.stat 0
        · simp
      · simp only [oneTick_up_fire_norep t scale hcd (by omega) hfire (by simpa using hr)]
        rw [tickLoop_done _ _ _ (by simp ; omega)]
        constructor
        · simpa using lor_two_pow_and_self t.stat 0
        · simp
    · have hneq : t.count + 1 ≠ t.cmp := by omega
      simp only [oneTick_up_nofire t scale hcd (by omega) hneq]
      have hrec := ih { t with cyclesUntilTick := t.cyclesUntilTick - scale,
                               count := t.count + 1 } f scale hs hk0 hcd
        (by simp ; omega) (by simpa using hlt) (by simp ; omega) (by simp ; omega)
      simpa using hrec

/-! ### I/O region helper lemmas -/

theorem ioRead_handlers {P : Type} (r : IORegion P) (a : Nat) :
    (r.readU32 a).2.handlers = r.handlers ∧ (r.readU32 a).2.size = r.size ∧
      (r.readU32 a).1 < 4294967296 := by
  unfold IORegion.readU32
  simp only []
  split <;> simp [wrap32] <;> omega

theorem shiftRight_and_not3 (off : Nat) (hoff : off < 4294967296) :
    (off &&& not32 3) >>> 2 = off >>> 2 := by
  have h3 : not32 3 = 2 ^ 32 - 1 ^^^ 3 := by rw [not32] ; norm_num
  have h3t : ∀ j, Nat.testBit 3 j = decide (j < 2) := by
    intro j
    rw [show (3 : Nat) = 2 ^ 2 - 1 by norm_num, Nat.testBit_two_pow_sub_one]
  apply Nat.eq_of_testBit_eq
  intro j
  rw [h3]
  simp only [Nat.testBit_shiftRight, Nat.testBit_and, Nat.testBit_xor,
    Nat.testBit_two_pow_sub_one, h3t]
  by_cases hj : j < 30
  · simp [show 2 + j < 32 by omega, show ¬ (2 + j < 2) by omega]
  · have hb : off.testBit (2 + j) = false := by
      apply Nat.testBit_lt_two_pow
      calc off < 4294967296 := hoff
        _ = 2 ^ 32 := by norm_num
        _ ≤ 2 ^ (2 + j) := Nat.pow_le_pow_right (by norm_num) (by omega)
    simp [hb]

theorem wordIndex_and_not3 {P : Type} (r : IORegion P) (off : Nat)
    (hoff : off < 4294967296) :
    r.wordIndex (off &&& not32 3) = r.wordIndex off := by
  unfold IORegion.wordIndex
  rw [shiftRight_and_not3 off hoff]

/-! ### The claims -/

/-- Claim C10: if the CPU is halted or has no MIU attached, `CPU.step` returns
false and leaves the entire CPU state unchanged. -/
theorem step_noop_when_halted_or_detached (c : CPU)
    (h : c.halted = true ∨ c.miu = none) : c.step = (c, false) := by
  unfold CPU.step
  rcases h with h | h
  · simp [h]
  · cases hh : c.halted
    · simp [hh, h]
    · simp [hh]

theorem step_noop_witness :
    (haltedCPU.halted = true ∨ haltedCPU.miu = none) ∧
      haltedCPU.step = (haltedCPU, false) :=
  ⟨Or.inl rfl, step_noop_when_halted_or_detached haltedCPU (Or.inl rfl)⟩

set_option maxHeartbeats 2000000 in
/-- Claim C1 (amended): every successfully executed instruction increments the
cycle counter by ONE unit (the code does `this.cycles++`, not `+= 4`); in
scenario S1 (nop at 0x9E000000), one step leaves PC == 0x9E000004, cycles == 1
and the flags unchanged. -/
theorem step_charges_one_cycle :
    (∀ c : CPU, (c.step).2 = true → (c.step).1.cycles = c.cycles + 1) ∧
      ((s1CPU.step).2 = true ∧ (s1CPU.step).1.pc = 2650800132 ∧
        (s1CPU.step).1.cycles = 1 ∧
        (s1CPU.step).1.N = s1CPU.N ∧ (s1CPU.step).1.Z = s1CPU.Z ∧
        (s1CPU.step).1.C = s1CPU.C ∧ (s1CPU.step).1.V = s1CPU.V ∧
        (s1CPU.step).1.T = s1CPU.T) := by
  constructor
  · intro c h
    unfold CPU.step
    cases hh : c.halted
    · cases hm : c.miu
      · unfold CPU.step at h ; simp [hh, hm] at h
      · simp only [CPU.step, hh, hm]
        simp only [Bool.false_eq_true, if_false]
        repeat' split
        all_goals
          simp [execSpForm_cycles, execIForm_cycles, execJForm_cycles, execBForm_cycles,
            execRixForm_cycles, execMemoryForm_cycles, exec16_cycles]
    · unfold CPU.step at h ; simp [hh] at h
  · exact ⟨by decide, by decide, by decide, by decide, by decide, by decide,
      by decide, by decide⟩

theorem step_charges_one_cycle_witness :
    (s1CPU.step).2 = true ∧ (s1CPU.step).1.cycles = s1CPU.cycles + 1 :=
  ⟨by decide, step_charges_one_cycle.1 s1CPU (by decide)⟩

/-- Claim C1 counterexample: in scenario S1 the cycle counter reads 1 after the
step, not 4 as the spec claims. -/
theorem s1_cycles_not_four :
    (s1CPU.step).1.pc = 2650800132 ∧ (s1CPU.step).1.cycles = 1 ∧
      ¬ (s1CPU.step).1.cycles = 4 := by
  exact ⟨by decide, by decide, by decide⟩

/-- Claim C2: exception entry with cause c vectors PC to cr3 + 4c, saves the
pre-entry PC in cr5 and the packed flags in sr0 = cr1, clears cr0 bit 0, and a
subsequent rte restores PC and the five flags exactly. -/
theorem exception_rte_contract (c : CPU) (cause : Nat)
    (hcause : cause ≤ 63) (hpc : c.pc < 4294967296)
    (hN : c.N ≤ 1) (hZ : c.Z ≤ 1) (hC : c.C ≤ 1) (hV : c.V ≤ 1) (hT : c.T ≤ 1) :
    exceptionRteContract c cause := by
  unfold exceptionRteContract
  have hand : ∀ x : Nat, x ≤ 1 → x &&& 1 = x := by
    intro x hx
    rcases Nat.le_one_iff_eq_zero_or_eq_one.mp hx with h | h <;> subst h <;> decide
  have hrt := packBits_roundtrip c.N c.Z c.C c.V c.T hN hZ hC hV hT
  refine ⟨?_, ?_, ?_, ?_, ?_, ?_, ?_, ?_, ?_, ?_, ?_⟩
  · simp [CPU.exception, CPU.packSR0, updFn, wrap32]
  · simp [CPU.exception, CPU.packSR0, updFn, wrap32]
    omega
  · simp [CPU.exception, CPU.packSR0, updFn]
  · simp [CPU.exception, CPU.packSR0, updFn, hand c.N hN, hand c.Z hZ, hand c.C hC,
      hand c.V hV, hand c.T hT]
  · simp [CPU.exception, CPU.packSR0, updFn]
    have h0 : (4294967294 : Nat) &&& 1 = 0 := by decide
    rw [← Nat.and_one_is_mod, Nat.and_assoc, h0, Nat.and_zero]
  · simp [CPU.exception, CPU.rte, CPU.packSR0, CPU.unpackSR0, updFn, wrap32]
    omega
  · simp [CPU.exception, CPU.rte, CPU.packSR0, CPU.unpackSR0, updFn, wrap32,
      hand c.N hN, hand c.Z hZ, hand c.C hC, hand c.V hV, hand c.T hT,
      Nat.mod_eq_of_lt hrt.2.2.2.2.2]
    exact hrt.1
  · simp [CPU.exception, CPU.rte, CPU.packSR0, CPU.unpackSR0, updFn, wrap32,
      hand c.N hN, hand c.Z hZ, hand c.C hC, hand c.V hV, hand c.T hT,
      Nat.mod_eq_of_lt hrt.2.2.2.2.2]
    exact hrt.2.1
  · simp [CPU.exception, CPU.rte, CPU.packSR0, CPU.unpackSR0, updFn, wrap32,
      hand c.N hN, hand c.Z hZ, hand c.C hC, hand c.V hV, hand c.T hT,
      Nat.mod_eq_of_lt hrt.2.2.2.2.2]
    exact hrt.2.2.1
  · simp [CPU.exception, CPU.rte, CPU.packSR0, CPU.unpackSR0, updFn, wrap32,
      hand c.N hN, hand c.Z hZ, hand c.C hC, hand c.V hV, hand c.T hT,
      Nat.mod_eq_of_lt hrt.2.2.2.2.2]
    exact hrt.2.2.2.1
  · simp [CPU.exception, CPU.rte, CPU.packSR0, CPU.unpackSR0, updFn, wrap32,
      hand c.N hN, hand c.Z hZ, hand c.C hC, hand c.V hV, hand c.T hT,
      Nat.mod_eq_of_lt hrt.2.2.2.2.2]
    exact hrt.2.2.2.2.1

theorem exception_rte_contract_witness :
    ((5 : Nat) ≤ 63 ∧ c2cpu.pc < 4294967296 ∧ c2cpu.N ≤ 1 ∧ c2cpu.Z ≤ 1 ∧
      c2cpu.C ≤ 1 ∧ c2cpu.V ≤ 1 ∧ c2cpu.T ≤ 1) ∧ exceptionRteContract c2cpu 5 :=
  ⟨by decide, exception_rte_contract c2cpu 5 (by decide) (by decide) (by decide)
    (by decide) (by decide) (by decide) (by decide)⟩

/-- Claim C3: a count-up channel with count 0, cmp C > 0 and irq enabled, fed
exactly C * 2^scale cycles, sets STAT bit 0 and raises the IRQ exactly once;
a channel initialized with COUNT == CMP, fed fewer cycles than one logical
tick needs, does not fire. -/
theorem timer_compare_fires_once (t u : Timer) (pre : Nat)
    (ht1 : t.enabled = true) (ht2 : t.countDown = false) (ht3 : t.irqEnabled = true)
    (ht4 : t.count = 0) (ht5 : 0 < t.cmp) (ht6 : t.cmp < 4294967296)
    (ht7 : t.cyclesUntilTick = 0)
    (hu1 : u.enabled = true) (hu2 : u.count = u.cmp) (hu3 : u.cyclesUntilTick = 0)
    (hpre : pre < 2 ^ u.clockScale) :
    timerFireContract t u pre := by
  unfold timerFireContract
  constructor
  · unfold Timer.tick
    simp only [ht1, Bool.true_eq_false, if_false]
    have hrun := tickLoop_countUp_fires t.cmp
      { t with cyclesUntilTick := t.cyclesUntilTick + t.cmp * 2 ^ t.clockScale }
      ({ t with cyclesUntilTick := t.cyclesUntilTick + t.cmp * 2 ^ t.clockScale }).cyclesUntilTick
      (2 ^ t.clockScale) (Nat.two_pow_pos _) ht5 (by simpa using ht2)
      (by simp [ht4]) (by simpa using ht6) (by simp [ht7]) (le_refl _)
    simp only [ht3, if_true, ite_true]
    simpa [ht1, ht3] using hrun
  · unfold Timer.tick
    simp only [hu1, Bool.true_eq_false, if_false]
    rw [tickLoop_done _ _ _ (by simp [hu3] ; omega)]
    constructor
    · split <;> rfl
    · rfl

theorem timer_compare_fires_once_witness :
    (t3a.enabled = true ∧ t3a.countDown = false ∧ t3a.irqEnabled = true ∧
      t3a.count = 0 ∧ 0 < t3a.cmp ∧ t3a.cmp < 4294967296 ∧ t3a.cyclesUntilTick = 0 ∧
      t3u.enabled = true ∧ t3u.count = t3u.cmp ∧ t3u.cyclesUntilTick = 0 ∧
      (3 : Nat) < 2 ^ t3u.clockScale) ∧
    timerFireContract t3a t3u 3 :=
  ⟨by decide, timer_compare_fires_once t3a t3u 3 (by decide) (by decide) (by decide)
    (by decide) (by decide) (by decide) (by decide) (by decide) (by decide)
    (by decide) (by decide)⟩

/-- Claim C4 (amended): enqueuing a received byte appends it to the RX FIFO,
places that byte (the most recently enqueued, not the head) in the RX data
register and sets RX-ready; reading offset 0 returns the RX data register,
leaves the FIFO untouched, and clears RX-ready unconditionally. -/
theorem uart_rx_behaviour :
    (∀ (u : Uart) (b : Nat),
      (u.receiveData b).rxQueue = u.rxQueue ++ [b &&& 255] ∧
      (u.receiveData b).rxBuf = b &&& 255 ∧
      (u.receiveData b).status &&& 64 = 64) ∧
    (∀ u : Uart,
      (u.readU32 0).1 = u.rxBuf ∧
      (u.readU32 0).2.rxQueue = u.rxQueue ∧
      (u.readU32 0).2.status &&& 64 = 0) := by
  constructor
  · intro u b
    refine ⟨rfl, rfl, ?_⟩
    simpa using lor_two_pow_and_self u.status 6
  · intro u
    refine ⟨rfl, rfl, ?_⟩
    simpa using land_not32_two_pow_and_self u.status 6 (by norm_num)

/-- Claim C4 counterexample: enqueue 0x41 then 0x42; the read returns 0x42
(the newest byte, not the head 0x41), the FIFO still holds both bytes, and
RX-ready is cleared although the FIFO is non-empty. -/
theorem uart_read_not_fifo_pop :
    ((((Uart.reset.receiveData 65).receiveData 66).readU32 0).1 = 66 ∧
      (((Uart.reset.receiveData 65).receiveData 66).readU32 0).1 ≠ 65) ∧
    ((((Uart.reset.receiveData 65).receiveData 66).readU32 0).2.rxQueue = [65, 66]) ∧
    ((((Uart.reset.receiveData 65).receiveData 66).readU32 0).2.status &&& 64 = 0) := by
  exact ⟨⟨by decide, by decide⟩, by decide, by decide⟩

/-- Claim C5 (code bug): the entry-opcode check in loadROM can never fire —
`finalOP` is masked to 5 bits, so `finalOP > 0x1F` is unsatisfiable — hence
every load ends in PAUSED (never ERROR) with the image already committed to
flash. -/
theorem loadROM_always_commits (flash : ArrayRegion) (data : List Nat) :
    (loadROM flash data).state = EngineState.PAUSED ∧
    (loadROM flash data).state ≠ EngineState.ERROR ∧
    (loadROM flash data).flash = flash.load (romSwapDetect data).1 0 := by
  simp only [loadROM]
  rw [if_neg (Nat.not_lt.mpr (Nat.and_le_right))]
  exact ⟨rfl, by simp, rfl⟩

/-- Claim C6 (code bug): the step dispatch switch has no case for OP 0x06, so
the rte encoding 0x30000210 (OP 0x06, sub-opcode 0x84) falls to the default
branch — PC advances by 4 instead of returning to cr5, and no register, flag
or bank changes. -/
theorem op6_falls_to_default :
    ((c6CPU.miu.getD { segments := fun _ => none }).readU32 c6CPU.pc = 805306896 ∧
      (805306896 >>> 27) &&& 31 = 6 ∧ (805306896 >>> 2) &&& 255 = 132) ∧
    (c6CPU.step).2 = true ∧
    (c6CPU.step).1.pc = 2650800132 ∧
    (c6CPU.step).1.pc ≠ c6CPU.cr 5 ∧
    (c6CPU.step).1.cr = c6CPU.cr ∧
    (c6CPU.step).1.sr = c6CPU.sr ∧
    (c6CPU.step).1.r = c6CPU.r ∧
    (c6CPU.step).1.N = c6CPU.N ∧ (c6CPU.step).1.Z = c6CPU.Z ∧
    (c6CPU.step).1.C = c6CPU.C ∧ (c6CPU.step).1.V = c6CPU.V ∧
    (c6CPU.step).1.T = c6CPU.T := by
  refine ⟨⟨by decide, by decide, by decide⟩, by decide, by decide, by decide,
    rfl, rfl, rfl, rfl, rfl, rfl, rfl, rfl⟩

/-- Claim C7: after trigger on line n, the STATUS bit is pending; exception
entry happens iff the MASK bit was set; MMIO writes to the controller never
invoke exception entry (so a later MASK write does not replay the pending
IRQ), and a MASK write leaves the pending bit set. -/
theorem intc_trigger_contract (i : Intc) (n : Nat) (hn : n ≤ 31) :
    triggerContract i n := by
  have hng : ¬ n > 31 := by omega
  have hbit : ∀ s : Nat, (s ||| 1 <<< n).testBit n = true := by
    intro s
    simp [Nat.one_shiftLeft, Nat.testBit_two_pow]
  refine ⟨?_, ?_, ?_, ?_, ?_⟩
  · simp only [Intc.trigger, hng, if_false]
    split <;> simp [hbit]
  · intro hm
    have hne : i.mask &&& 1 <<< n ≠ 0 := by
      rw [Nat.one_shiftLeft, Nat.and_two_pow, hm]
      simp [(Nat.two_pow_pos n).ne']
    simp [Intc.trigger, hng, hne]
  · intro hm
    have h0 : i.mask &&& 1 <<< n = 0 := by
      rw [Nat.one_shiftLeft, Nat.and_two_pow, hm]
      simp
    simp [Intc.trigger, hng, h0]
  · intro a v
    simp only [Intc.writeU32]
    split_ifs <;> rfl
  · intro v
    simp [Intc.trigger, hng, Intc.writeU32]
    split <;> simp [hbit]

theorem intc_trigger_contract_witness :
    (5 : Nat) ≤ 31 ∧ triggerContract intc7 5 :=
  ⟨by decide, intc_trigger_contract intc7 5 (by decide)⟩

/-- Claim C8: a byte (or halfword) write into a handled MMIO word invokes the
word write handler exactly once, with the old word in which only the addressed
byte (halfword) lane has been replaced by the written value. -/
theorem mmio_subword_write_rmw {P : Type} (r : IORegion P) (off v : Nat)
    (h : IOHandler P) (hoff : off < 4294967296)
    (hh : r.handlers (r.wordIndex off) = some h) :
    mmioRmwContract r off v := by
  obtain ⟨hH, hS, hV⟩ := ioRead_handlers r (off &&& not32 3)
  have hwi : ∀ a : Nat, (r.readU32 (off &&& not32 3)).2.wordIndex a = r.wordIndex a := by
    intro a
    unfold IORegion.wordIndex
    rw [hS]
  constructor
  · refine ⟨wrap32 (((r.readU32 (off &&& not32 3)).1 &&&
      not32 (255 <<< ((off &&& 3) * 8))) |||
      ((v &&& 255) <<< ((off &&& 3) * 8))), ?_, ?_⟩
    · unfold IORegion.writeU8 IORegion.writeU32
      simp only [hwi, wordIndex_and_not3 r off hoff, hH, hh]
    · intro i hi
      have hk : off &&& 3 ≤ 3 := Nat.and_le_right
      have hmlt : (((r.readU32 (off &&& not32 3)).1 &&&
          not32 (255 <<< ((off &&& 3) * 8))) |||
          ((v &&& 255) <<< ((off &&& 3) * 8))) < 4294967296 := by
        apply Nat.or_lt_two_pow (n := 32)
        · exact Nat.lt_of_le_of_lt Nat.and_le_left hV
        · calc (v &&& 255) <<< ((off &&& 3) * 8)
              = (v &&& 255) * 2 ^ ((off &&& 3) * 8) := Nat.shiftLeft_eq _ _
            _ ≤ 255 * 2 ^ 24 := by
                apply Nat.mul_le_mul Nat.and_le_right
                exact Nat.pow_le_pow_right (by norm_num) (by omega)
            _ < 2 ^ 32 := by norm_num
      rw [wrap32, Nat.mod_eq_of_lt hmlt]
      exact byteLane_merge (r.readU32 (off &&& not32 3)).1 v (off &&& 3) i hk hi
  · have h2 : off &&& 2 = ((off &&& 2) >>> 1) * 2 := by
      have := Nat.and_two_pow off 1
      norm_num at this
      rw [this]
      rcases off.testBit 1 <;> simp
    refine ⟨wrap32 (((r.readU32 (off &&& not32 3)).1 &&&
      not32 (65535 <<< ((off &&& 2) * 8))) |||
      ((v &&& 65535) <<< ((off &&& 2) * 8))), ?_, ?_⟩
    · unfold IORegion.writeU16 IORegion.writeU32
      simp only [hwi, wordIndex_and_not3 r off hoff, hH, hh]
    · intro i hi
      have hk : (off &&& 2) >>> 1 ≤ 1 := by
        have : off &&& 2 ≤ 2 := Nat.and_le_right
        omega
      have hs16 : (off &&& 2) * 8 = ((off &&& 2) >>> 1) * 16 := by
        rw [h2] ; ring_nf ; omega
      have hmlt : (((r.readU32 (off &&& not32 3)).1 &&&
          not32 (65535 <<< ((off &&& 2) * 8))) |||
          ((v &&& 65535) <<< ((off &&& 2) * 8))) < 4294967296 := by
        apply Nat.or_lt_two_pow (n := 32)
        · exact Nat.lt_of_le_of_lt Nat.and_le_left hV
        · calc (v &&& 65535) <<< ((off &&& 2) * 8)
              = (v &&& 65535) * 2 ^ ((off &&& 2) * 8) := Nat.shiftLeft_eq _ _
            _ ≤ 65535 * 2 ^ 16 := by
                apply Nat.mul_le_mul Nat.and_le_right
                apply Nat.pow_le_pow_right (by norm_num)
                have : off &&& 2 ≤ 2 := Nat.and_le_right
                omega
            _ < 2 ^ 32 := by norm_num
      rw [wrap32, Nat.mod_eq_of_lt hmlt]
      rw [hs16]
      exact halfLane_merge (r.readU32 (off &&& not32 3)).1 v ((off &&& 2) >>> 1) i hk hi

theorem mmio_subword_write_rmw_witness :
    ((13 : Nat) < 4294967296 ∧ ioreg8.handlers (ioreg8.wordIndex 13) = some ioh8) ∧
      mmioRmwContract ioreg8 13 171 :=
  ⟨⟨by decide, rfl⟩, mmio_subword_write_rmw ioreg8 13 171 ioh8 (by decide) rfl⟩

/-- Claim C9 counterexample: run cmp r0,r0 (sets Z=C=T=1) then mfsr r1,sr0;
the value read from sr0 is 0 — the stale stored sr0 — not the packed mirror
0x60000001 of the current flags. -/
theorem sr0_not_flag_mirror :
    (((c9CPU.step).1.step).1.Z = 1 ∧ ((c9CPU.step).1.step).1.C = 1 ∧
      ((c9CPU.step).1.step).1.T = 1 ∧ ((c9CPU.step).1.step).1.N = 0 ∧
      ((c9CPU.step).1.step).1.V = 0) ∧
    ((c9CPU.step).1.step).1.r 1 = 0 ∧
    ((c9CPU.step).1.step).1.getSystemRegister 0 = 0 ∧
    ((c9CPU.step).1.step).1.getSystemRegister 0 ≠ 1610612737 := by
  refine ⟨⟨by decide, by decide, by decide, by decide, by decide⟩,
    by decide, by decide, by decide⟩

/-- Claim C9 (amended): writing sr0 unpacks the written value into the five
flags and stores it; reading sr0 returns the stored value (which is re-packed
from the flags only at exception entry, so it can be stale). -/
theorem sr0_write_unpacks :
    (∀ (c : CPU) (v : Nat),
      ((c.setSystemRegister 0 v).sr 0 = wrap32 v) ∧
      (c.setSystemRegister 0 v).N = (wrap32 v >>> 31) &&& 1 ∧
      (c.setSystemRegister 0 v).Z = (wrap32 v >>> 30) &&& 1 ∧
      (c.setSystemRegister 0 v).C = (wrap32 v >>> 29) &&& 1 ∧
      (c.setSystemRegister 0 v).V = (wrap32 v >>> 28) &&& 1 ∧
      (c.setSystemRegister 0 v).T = wrap32 v &&& 1) ∧
    (∀ c : CPU, c.getSystemRegister 0 = wrap32 (c.sr 0)) := by
  constructor
  · intro c v
    have hww : wrap32 (wrap32 v) = wrap32 v := Nat.mod_mod_of_dvd _ dvd_rfl
    simp [CPU.setSystemRegister, CPU.unpackSR0, updFn, hww]
  · intro c
    simp [CPU.getSystemRegister]

end Hyperscan
